import Mathlib

/-!
Verification development for the kotlinx-datetime native timezone layer.

The development shallowly embeds the two backend implementations of the
`cdate.h` interface:

* `src/core/nativeMain/cinterop/cpp/cdate.cpp` (the date-library backend used
  on Linux/macOS): `saturating`, `offset_at_instant`,
  `offset_at_datetime_impl`, `offset_at_datetime`, `at_start_of_day`.
  The external date library's `time_zone::get_info` queries are modelled by an
  explicit interval table per zone (`TimeZone`), with the classification of a
  civil time as unique/nonexistent/ambiguous computed exactly as described in
  the design document (candidate offsets that map the civil time into their
  own validity interval).

* `src/core/nativeMain/cinterop/cpp/windows.cpp` (the Windows registry
  backend): `key_to_string`, the cache rebuild `repopulate_timezone_cache`,
  `time_zone_by_id`, and the error path of its `offset_at_datetime_impl`.
  WinAPI enumeration results are modelled as an explicit list; C++ exceptions
  are modelled as explicit error values, distinguishing `runtime_error` from
  `out_of_range` because the code catches them selectively.

Machine integers are embedded as `Int` with the C constants (`INT_MAX`,
`LONG_MAX`) spelled out; all definitions are computable so that witnesses
evaluate by `decide`.
-/

set_option maxRecDepth 4000

/-- `INT_MAX` of the C `int` type; used by the source as the sentinel offset. -/
def INT_MAX : Int := 2147483647

/-- The spec calls the sentinel offset value `INVALID_OFFSET`; in the source it
is literally `INT_MAX`. -/
def INVALID_OFFSET : Int := INT_MAX

/-- `LONG_MAX`, the far-future sentinel instant returned by `at_start_of_day`
on resolution failure. -/
def LONG_MAX : Int := 9223372036854775807

/-- `SIZE_MAX`, the sentinel `TZID_INVALID` from `cdate.h`. -/
def TZID_INVALID : Nat := 18446744073709551615

/-- Days from the Unix epoch to the civil date `y-m-d`, the standard civil
calendar algorithm used by the date library for `sys_days`.  `Int.tdiv` is
C++ truncating division (all divisions here act on non-negative operands
except the era computation, which the algorithm pre-adjusts for truncation). -/
def days_from_civil (y m d : Int) : Int :=
  let y2 := if m ≤ 2 then y - 1 else y
  let era := Int.tdiv (if 0 ≤ y2 then y2 else y2 - 399) 400
  let yoe := y2 - era * 400
  let doy := Int.tdiv (153 * (m + (if 2 < m then -3 else 9)) + 2) 5 + d - 1
  let doe := yoe * 365 + Int.tdiv yoe 4 - Int.tdiv yoe 100 + doy
  era * 146097 + doe - 719468

/-- `first_instant_of_year` from cdate.cpp: the Unix time of 00:00:00 UTC on
January 1 of the given year. -/
def first_instant_of_year (yr : Int) : Int := 86400 * days_from_civil yr 1 1

/-- `min_available_instant` from cdate.cpp: the first instant of year
`++year::min()`, i.e. -32766. -/
def min_available_instant : Int := first_instant_of_year (-32766)

/-- `max_available_instant` from cdate.cpp: the first instant of year
`--year::max()`, i.e. 32766. -/
def max_available_instant : Int := first_instant_of_year 32766

/-- `saturating` from cdate.cpp: clamps an epoch-second value into
`[min_available_instant, max_available_instant]`. -/
def saturating (epoch_sec : Int) : Int :=
  if epoch_sec < min_available_instant then min_available_instant
  else if epoch_sec > max_available_instant then max_available_instant
  else epoch_sec

/-- One `sys_info` entry of the date library: a half-open validity interval
`[begin_, end_)` of UTC instants during which the zone uses `offset`. -/
structure SysInfo where
  begin_ : Int
  end_ : Int
  offset : Int
deriving DecidableEq

/-- The zero-initialized `sys_info` value (C++ value initialization). -/
def defaultSysInfo : SysInfo := ⟨0, 0, 0⟩

/-- A time zone as the date library presents it: the table of its offset
intervals, in chronological order for well-formed data. -/
structure TimeZone where
  intervals : List SysInfo
deriving DecidableEq

/-- The `local_info::result` discriminator of the date library. -/
inductive LocalResult where
  | unique
  | nonexistent
  | ambiguous
deriving DecidableEq

/-- The `local_info` record of the date library: classification plus the
`first` (pre-transition) and `second` (post-transition) `sys_info`. -/
structure LocalInfo where
  result : LocalResult
  first : SysInfo
  second : SysInfo
deriving DecidableEq

/-- The `GAP_HANDLING` enumeration from `cdate.h`. -/
inductive GapHandling where
  | moveForward
  | nextCorrect
deriving DecidableEq

/-- `time_zone::get_info(sys_time)` of the date library: the interval of the
zone containing the given UTC instant. -/
def sys_lookup (z : TimeZone) (t : Int) : Option SysInfo :=
  z.intervals.find? (fun i => decide (i.begin_ ≤ t) && decide (t < i.end_))

/-- The candidate intervals for a civil (naive local) time `l`: interval `i`
is a candidate when interpreting `l` with offset `i.offset` yields an instant
inside `i` itself, i.e. `l` lies in `[begin_ + offset, end_ + offset)`. -/
def local_candidates (z : TimeZone) (l : Int) : List SysInfo :=
  z.intervals.filter
    (fun i => decide (i.begin_ + i.offset ≤ l) && decide (l < i.end_ + i.offset))

/-- For a civil time hit by no candidate interval, find the adjacent pair of
intervals whose forward transition skips it: `i` ends (in its own local time)
at or before `l`, and the next interval `j` starts (in its own local time)
after `l`.  `first` is the pre-gap state, `second` the post-gap state, exactly
the `local_info` contents the date library reports for a nonexistent time. -/
def gapPair : List SysInfo → Int → Option LocalInfo
  | i :: j :: rest, l =>
    if i.end_ = j.begin_ ∧ i.end_ + i.offset ≤ l ∧ l < j.begin_ + j.offset then
      some ⟨LocalResult.nonexistent, i, j⟩
    else gapPair (j :: rest) l
  | _, _ => none

/-- `time_zone::get_info(local_time)` of the date library: classify the civil
time by its candidate count.  One candidate is a unique mapping; two
candidates are an overlap (`first` the chronologically earlier interval,
`second` the later one); no candidate is a gap, reported via `gapPair`.
Malformed interval tables (three or more candidates, or a gap with no
enclosing transition) yield `none`, which the embedding treats as the thrown
error of the C++ interface. -/
def get_info_local (z : TimeZone) (l : Int) : Option LocalInfo :=
  match local_candidates z l with
  | [] => gapPair z.intervals l
  | [i] => some ⟨LocalResult.unique, i, defaultSysInfo⟩
  | [i, j] => some ⟨LocalResult.ambiguous, i, j⟩
  | _ :: _ :: _ :: _ => none

/-- `offset_at_instant` from cdate.cpp: saturate the instant, look the zone up
by id (`zone_by_id` throws on an out-of-range id, caught to `INT_MAX`), and
return the offset in force at that instant. -/
def offset_at_instant (db : List TimeZone) (zone_id : Nat) (epoch_sec : Int) : Int :=
  match db[zone_id]? with
  | none => INT_MAX
  | some zone =>
    match sys_lookup zone (saturating epoch_sec) with
    | none => INT_MAX
    | some info => info.offset

/-- `offset_at_datetime_impl` from cdate.cpp, returning the pair
(value written to `*offset`, returned adjustment).  The unique case returns
the single offset with adjustment 0; the nonexistent case returns the
post-gap offset with the gap-policy-dependent adjustment; the ambiguous case
keeps the caller's offset when it equals `second`'s offset and otherwise
writes `first`'s offset, always with adjustment 0; the error path yields
`(INT_MAX, 0)`. -/
def offset_at_datetime_impl (db : List TimeZone) (zone_id : Nat) (sec : Int)
    (offset : Int) (gap_handling : GapHandling) : Int × Int :=
  match db[zone_id]? with
  | none => (INT_MAX, 0)
  | some zone =>
    match get_info_local zone sec with
    | none => (INT_MAX, 0)
    | some info =>
      match info.result with
      | LocalResult.unique => (info.first.offset, 0)
      | LocalResult.nonexistent =>
        (info.second.offset,
          match gap_handling with
          | GapHandling.moveForward => info.second.offset - info.first.offset
          | GapHandling.nextCorrect => info.second.begin_ - sec + info.second.offset)
      | LocalResult.ambiguous =>
        if info.second.offset ≠ offset then (info.first.offset, 0) else (offset, 0)

/-- `offset_at_datetime` from cdate.cpp: the exported entry point, saturating
the civil value and fixing the `MOVE_FORWARD` policy. -/
def offset_at_datetime (db : List TimeZone) (zone_id : Nat) (epoch_sec : Int)
    (offset : Int) : Int × Int :=
  offset_at_datetime_impl db zone_id (saturating epoch_sec) offset
    GapHandling.moveForward

/-- `at_start_of_day` from cdate.cpp: resolve the civil midnight with the
`NEXT_CORRECT` policy; `LONG_MAX` on failure; for instants outside the
supported range the transition adjustment is zeroed before the final sum. -/
def at_start_of_day (db : List TimeZone) (zone_id : Nat) (epoch_sec : Int) : Int :=
  let r := offset_at_datetime_impl db zone_id (saturating epoch_sec) 0
    GapHandling.nextCorrect
  if r.1 = INT_MAX then LONG_MAX
  else
    let trans :=
      if epoch_sec > max_available_instant ∨ epoch_sec < min_available_instant
      then 0 else r.2
    epoch_sec - r.1 + trans

/-! ## The Windows registry backend (windows.cpp) -/

/-- A `DYNAMIC_TIME_ZONE_INFORMATION` record, reduced to the field the cache
machinery inspects: its registry key name. -/
structure DTZI where
  keyName : String
deriving DecidableEq

/-- One step of `EnumDynamicTimeZoneInformation`: either `ERROR_SUCCESS` with
a record, or some other non-terminal status (which the enumeration loop in the
source skips).  The end marker `ERROR_NO_MORE_ITEMS` is the end of the list. -/
inductive EnumResult where
  | success (d : DTZI)
  | failure
deriving DecidableEq

/-- The C++ exception kinds the source distinguishes: `key_to_string` throws
`std::runtime_error`, map `.at` throws `std::out_of_range`, and the handlers
in windows.cpp catch them selectively. -/
inductive CppError where
  | runtime_error
  | out_of_range
deriving DecidableEq

/-- `MAX_KEY_LENGTH` from windows.cpp, the fixed key-name buffer size. -/
def MAX_KEY_LENGTH : Nat := 128

/-- `CACHE_INVALIDATION_TIMEOUT` from windows.cpp: 5 minutes, in seconds. -/
def CACHE_INVALIDATION_TIMEOUT : Int := 300

/-- `key_to_string` from windows.cpp: throws `runtime_error` when the key name
does not fit the fixed buffer (`sizeof(buf) < wlen + 1`), maps the native UTC
spelling to "UTC", and otherwise returns the key name itself. -/
def key_to_string (d : DTZI) : Except CppError String :=
  if MAX_KEY_LENGTH < d.keyName.length + 1 then Except.error CppError.runtime_error
  else if d.keyName = "Coordinated Universal Time" then Except.ok "UTC"
  else Except.ok d.keyName

/-- `id_by_name` from windows.cpp: the id table lookup, `TZID_INVALID` when
the standard name is absent. -/
def id_by_name (zids : List (String × Nat)) (name : String) : Nat :=
  match zids.find? (fun p => p.1 == name) with
  | some p => p.2
  | none => TZID_INVALID

/-- The first loop of `repopulate_timezone_cache`: enumerate the registry and
build `native_to_zones`.  Entries whose status is not `ERROR_SUCCESS` are
skipped, but `key_to_string` is called with no exception handler, so a
malformed key aborts the whole loop with `runtime_error`. -/
def build_native_map : List EnumResult → Except CppError (List (String × DTZI))
  | [] => Except.ok []
  | EnumResult.failure :: rest => build_native_map rest
  | EnumResult.success d :: rest =>
    match key_to_string d with
    | Except.error e => Except.error e
    | Except.ok k =>
      match build_native_map rest with
      | Except.error e => Except.error e
      | Except.ok m => Except.ok ((k, d) :: m)

/-- The second loop of `repopulate_timezone_cache`: for every
(standard name, windows name) pair whose windows name was enumerated, store
the record under the standard name's id; absent names (`out_of_range` from
`.at`) are skipped by the surrounding try/catch. -/
def build_cache (stw : List (String × String)) (zids : List (String × Nat))
    (native : List (String × DTZI)) : List (Nat × DTZI) :=
  stw.foldl
    (fun c p =>
      match native.find? (fun q => q.1 == p.2) with
      | none => c
      | some q => c ++ [(id_by_name zids p.1, q.2)]) []

/-- The mutable cache state of windows.cpp: the id-indexed zone map and the
`next_flush` deadline of the steady clock. -/
structure CacheState where
  cache : List (Nat × DTZI)
  next_flush : Int
deriving DecidableEq

/-- `repopulate_timezone_cache` from windows.cpp.  Under the exclusive lock it
re-checks the deadline and returns untouched if not yet due.  Otherwise it
clears the cache and advances `next_flush` before enumerating, so when the
unprotected `key_to_string` call throws, the escaping `runtime_error` leaves
an empty cache and an already-advanced deadline behind.  The third component
counts registry enumerations started (for the freshness-window claims). -/
def repopulate_timezone_cache (reg : List EnumResult)
    (stw : List (String × String)) (zids : List (String × Nat))
    (st : CacheState) (current_time : Int) :
    CacheState × Option CppError × Nat :=
  if current_time < st.next_flush then (st, none, 0)
  else
    match build_native_map reg with
    | Except.error e =>
      (⟨[], current_time + CACHE_INVALIDATION_TIMEOUT⟩, some e, 1)
    | Except.ok m =>
      (⟨build_cache stw zids m, current_time + CACHE_INVALIDATION_TIMEOUT⟩,
        none, 1)

/-- `time_zone_by_id` from windows.cpp: repopulate when strictly past the
deadline, then look the id up in the cache; the `out_of_range` of a missing
id is caught (`Except.ok none` models returning `false`), while a
`runtime_error` escaping the rebuild propagates to the caller
(`Except.error`).  Also returns the new cache state and the enumeration
count. -/
def time_zone_by_id (reg : List EnumResult) (stw : List (String × String))
    (zids : List (String × Nat)) (st : CacheState) (now : Int) (id : Nat) :
    CacheState × Except CppError (Option DTZI) × Nat :=
  let r := if st.next_flush < now then repopulate_timezone_cache reg stw zids st now
           else (st, none, 0)
  match r with
  | (st2, some e, n) => (st2, Except.error e, n)
  | (st2, none, n) =>
    match st2.cache.find? (fun p => p.1 == id) with
    | some p => (st2, Except.ok (some p.2), n)
    | none => (st2, Except.ok none, n)

/-- The skeleton of `offset_at_datetime_impl` from windows.cpp around its
zone-lookup error path: `found` is the outcome of `time_zone_by_id` and
`happy` abstracts the WinAPI-dependent remainder of the function (the
conversions via `TzSpecificLocalTimeToSystemTimeEx` etc., external to this
repository).  When the lookup fails the function returns `INT_MAX` as its
return value (the adjustment) and leaves the caller's offset output
untouched. -/
def w_offset_at_datetime_impl (found : Option DTZI)
    (happy : DTZI → Int × Int) (offset : Int) : Int × Int :=
  match found with
  | none => (offset, INT_MAX)
  | some d => happy d

/-! ## Concrete fixtures used by the witnesses and counterexamples

The zone below realizes the example zone of the design document: standard
offset +1h, daylight offset +2h, spring-forward at 2023-03-26 02:00 local
(transition instant 1679792400 = 2023-03-26 01:00 UTC) and fall-back at
2023-10-29 03:00 local (transition instant 1698541200 = 2023-10-29 01:00
UTC). -/

/-- The daylight interval before the 2023 fall-back: offset +2h. -/
def ovA : SysInfo := ⟨min_available_instant, 1698541200, 7200⟩

/-- The standard interval after the 2023 fall-back: offset +1h. -/
def ovB : SysInfo := ⟨1698541200, max_available_instant, 3600⟩

/-- A zone exhibiting the fall-back overlap of the design document. -/
def overlapZone : TimeZone := ⟨[ovA, ovB]⟩

/-- The standard interval before the 2023 spring-forward: offset +1h. -/
def gpA : SysInfo := ⟨min_available_instant, 1679792400, 3600⟩

/-- The daylight interval after the 2023 spring-forward: offset +2h. -/
def gpB : SysInfo := ⟨1679792400, max_available_instant, 7200⟩

/-- A zone exhibiting the spring-forward gap of the design document. -/
def gapZone : TimeZone := ⟨[gpA, gpB]⟩

/-- A zone whose spring-forward gap starts exactly at
`min_available_instant`, so that the saturated civil midnight of any
out-of-range instant is classified as nonexistent with a non-zero
adjustment. -/
def gapZoneAtMin : TimeZone :=
  ⟨[⟨min_available_instant - 1000000, min_available_instant, 0⟩,
    ⟨min_available_instant, max_available_instant, 3600⟩]⟩

/-- A zone with a single interval covering the whole supported range. -/
def flatZone : TimeZone :=
  ⟨[⟨min_available_instant - 86400, max_available_instant + 86400, 3600⟩]⟩

/-- A well-formed Windows registry key name. -/
def wEuropeKey : String := "W. Europe Standard Time"

/-- A malformed registry key name: 128 characters, one more than the fixed
buffer can hold together with its terminator. -/
def longKey : String := String.mk (List.replicate 128 'a')

/-- A one-entry standard-name/windows-name mapping table. -/
def stw0 : List (String × String) := [("Europe/Berlin", wEuropeKey)]

/-- The id table assigning id 0 to the one known standard name. -/
def zids0 : List (String × Nat) := [("Europe/Berlin", 0)]

/-- A healthy registry enumeration: one good entry, one skipped status. -/
def reg_good : List EnumResult := [EnumResult.success ⟨wEuropeKey⟩, EnumResult.failure]

/-- A registry enumeration containing a malformed entry after a good one. -/
def reg_bad : List EnumResult :=
  [EnumResult.success ⟨wEuropeKey⟩, EnumResult.success ⟨longKey⟩]

instance {ε α : Type} [DecidableEq ε] [DecidableEq α] : DecidableEq (Except ε α) :=
  fun a b =>
    match a, b with
    | Except.error e1, Except.error e2 =>
      if h : e1 = e2 then isTrue (by rw [h])
      else isFalse (fun hh => h (by cases hh; rfl))
    | Except.ok v1, Except.ok v2 =>
      if h : v1 = v2 then isTrue (by rw [h])
      else isFalse (fun hh => h (by cases hh; rfl))
    | Except.error _, Except.ok _ => isFalse (fun hh => Except.noConfusion hh)
    | Except.ok _, Except.error _ => isFalse (fun hh => Except.noConfusion hh)

/-- Two offset intervals occupy disjoint spans of UTC time (in either order);
the invariant the date library maintains for each zone's interval table. -/
def SysDisjoint (a b : SysInfo) : Prop := a.end_ ≤ b.begin_ ∨ b.end_ ≤ a.begin_

instance : DecidableRel SysDisjoint := fun a b =>
  inferInstanceAs (Decidable (a.end_ ≤ b.begin_ ∨ b.end_ ≤ a.begin_))

/-! ## Helper lemmas -/

theorem minmax_le : min_available_instant ≤ max_available_instant := by decide

/-- Whatever `gapPair` reports is a nonexistent classification whose `first`
and `second` are the adjacent intervals around the skipping transition. -/
theorem gapPair_spec (l : List SysInfo) (sec : Int) (info : LocalInfo)
    (h : gapPair l sec = some info) :
    info.result = LocalResult.nonexistent ∧
    info.first.end_ = info.second.begin_ ∧
    info.first.end_ + info.first.offset ≤ sec ∧
    sec < info.second.begin_ + info.second.offset := by
  induction l with
  | nil => simp [gapPair] at h
  | cons i rest ih =>
    cases rest with
    | nil => simp [gapPair] at h
    | cons j rest2 =>
      rw [gapPair] at h
      split at h
      · rename_i hcond
        cases h
        exact ⟨rfl, hcond.1, hcond.2.1, hcond.2.2⟩
      · exact ih h

/-- Inversion of `get_info_local` for the nonexistent classification. -/
theorem get_info_local_nonexistent (z : TimeZone) (sec : Int) (info : LocalInfo)
    (h : get_info_local z sec = some info)
    (hres : info.result = LocalResult.nonexistent) :
    info.first.end_ = info.second.begin_ ∧
    info.first.end_ + info.first.offset ≤ sec ∧
    sec < info.second.begin_ + info.second.offset := by
  unfold get_info_local at h
  split at h
  · exact (gapPair_spec _ _ _ h).2
  · cases h; exact LocalResult.noConfusion hres
  · cases h; exact LocalResult.noConfusion hres
  · exact Option.noConfusion h

/-- Inversion of `get_info_local` for the unique classification: the civil
time has exactly the one candidate interval `info.first`. -/
theorem get_info_local_unique (z : TimeZone) (sec : Int) (info : LocalInfo)
    (h : get_info_local z sec = some info)
    (hres : info.result = LocalResult.unique) :
    local_candidates z sec = [info.first] := by
  unfold get_info_local at h
  split at h
  · rw [(gapPair_spec _ _ _ h).1] at hres
    exact LocalResult.noConfusion hres
  · rename_i i heq
    cases h
    exact heq
  · cases h; exact LocalResult.noConfusion hres
  · exact Option.noConfusion h

/-- Reduce `offset_at_datetime_impl` once the zone and its classification are
known. -/
theorem impl_eq_of_info (db : List TimeZone) (id : Nat) (z : TimeZone)
    (sec off : Int) (g : GapHandling) (info : LocalInfo)
    (hz : db[id]? = some z) (hi : get_info_local z sec = some info) :
    offset_at_datetime_impl db id sec off g =
      match info.result with
      | LocalResult.unique => (info.first.offset, 0)
      | LocalResult.nonexistent =>
        (info.second.offset,
          match g with
          | GapHandling.moveForward => info.second.offset - info.first.offset
          | GapHandling.nextCorrect => info.second.begin_ - sec + info.second.offset)
      | LocalResult.ambiguous =>
        if info.second.offset ≠ off then (info.first.offset, 0) else (off, 0) := by
  unfold offset_at_datetime_impl
  simp only [hz, hi]

theorem sysDisjoint_symm {a b : SysInfo} (h : SysDisjoint a b) : SysDisjoint b a :=
  Or.symm h

/-- Any two members of a pairwise-disjoint interval list are equal or
disjoint. -/
theorem pairwise_mem_disjoint {l : List SysInfo} (h : l.Pairwise SysDisjoint)
    {a b : SysInfo} (ha : a ∈ l) (hb : b ∈ l) (hne : a ≠ b) :
    SysDisjoint a b := by
  induction l with
  | nil => cases ha
  | cons x xs ih =>
    rw [List.pairwise_cons] at h
    rcases List.mem_cons.mp ha with ha1 | ha2 <;>
      rcases List.mem_cons.mp hb with hb1 | hb2
    · exact absurd (ha1.trans hb1.symm) hne
    · exact ha1 ▸ h.1 b hb2
    · exact sysDisjoint_symm (hb1 ▸ h.1 a ha2)
    · exact ih h.2 ha2 hb2

/-- In a pairwise-disjoint interval table, `sys_lookup` at an instant inside a
member interval returns exactly that interval. -/
theorem sys_lookup_of_mem {z : TimeZone}
    (hwf : z.intervals.Pairwise SysDisjoint) {i : SysInfo} {t : Int}
    (hi : i ∈ z.intervals) (h1 : i.begin_ ≤ t) (h2 : t < i.end_) :
    sys_lookup z t = some i := by
  have hsome :
      (z.intervals.find? (fun x => decide (x.begin_ ≤ t) && decide (t < x.end_))).isSome := by
    rw [List.find?_isSome]
    exact ⟨i, hi, by simp [h1, h2]⟩
  obtain ⟨j, hj⟩ := Option.isSome_iff_exists.mp hsome
  have hjm := List.mem_of_find?_eq_some hj
  have hjp := List.find?_some hj
  simp only [Bool.and_eq_true, decide_eq_true_eq] at hjp
  obtain ⟨hj1, hj2⟩ := hjp
  by_cases hij : j = i
  · rw [sys_lookup, hj, hij]
  · exfalso
    rcases pairwise_mem_disjoint hwf hjm hi hij with h3 | h3
    · omega
    · omega

/-! ## Claim theorems -/

/-- C1: for every known zone and civil time classified as ambiguous (two
candidate intervals, the first ending no later than the second begins, i.e.
the pre- and post-transition candidates), `offset_at_datetime_impl` keeps the
caller-supplied preferred offset when it equals the later (post-transition)
candidate's offset, otherwise writes the earlier (pre-transition) candidate's
offset, and in both cases returns adjustment 0. -/
theorem ambiguous_keeps_preferred_or_earlier (db : List TimeZone) (id : Nat)
    (z : TimeZone) (sec pref : Int) (c1 c2 : SysInfo) (g : GapHandling)
    (hz : db[id]? = some z)
    (hcand : local_candidates z sec = [c1, c2])
    (hord : c1.end_ ≤ c2.begin_) :
    offset_at_datetime_impl db id sec pref g =
      (if pref = c2.offset then pref else c1.offset, 0) := by
  have hinfo : get_info_local z sec = some ⟨LocalResult.ambiguous, c1, c2⟩ := by
    unfold get_info_local; rw [hcand]
  rw [impl_eq_of_info db id z sec pref g _ hz hinfo]
  by_cases hp : pref = c2.offset
  · rw [if_pos hp]
    show (if c2.offset ≠ pref then (c1.offset, 0) else (pref, 0)) = (pref, 0)
    rw [if_neg (fun hn => hn hp.symm)]
  · rw [if_neg hp]
    show (if c2.offset ≠ pref then (c1.offset, 0) else (pref, 0)) = (c1.offset, 0)
    rw [if_pos (fun hh => hp hh.symm)]

/-- C1 witness: the design document's fall-back example; with preferred
offset 0 (matching neither candidate) the earlier candidate's +2h offset is
returned with adjustment 0. -/
theorem ambiguous_keeps_preferred_or_earlier_witness :
    (([overlapZone] : List TimeZone)[0]? = some overlapZone ∧
      local_candidates overlapZone 1698546600 = [ovA, ovB] ∧
      ovA.end_ ≤ ovB.begin_) ∧
    offset_at_datetime_impl [overlapZone] 0 1698546600 0 GapHandling.moveForward =
      (if (0 : Int) = ovB.offset then 0 else ovA.offset, 0) := by
  refine ⟨⟨by decide, by decide, by decide⟩, ?_⟩
  exact ambiguous_keeps_preferred_or_earlier [overlapZone] 0 overlapZone
    1698546600 0 ovA ovB GapHandling.moveForward (by decide) (by decide) (by decide)

/-- C2: for every known zone and civil time classified as nonexistent,
`offset_at_datetime_impl` under `MOVE_FORWARD` writes the post-gap offset
(`second`) and returns adjustment (post-gap offset) − (pre-gap offset);
`first` and `second` are certified to be the pre-gap and post-gap states:
they meet at one transition instant and the civil time lies in the skipped
local range. -/
theorem gap_move_forward_offset_and_adjustment (db : List TimeZone) (id : Nat)
    (z : TimeZone) (sec pref : Int) (info : LocalInfo)
    (hz : db[id]? = some z)
    (hinfo : get_info_local z sec = some info)
    (hres : info.result = LocalResult.nonexistent) :
    offset_at_datetime_impl db id sec pref GapHandling.moveForward =
      (info.second.offset, info.second.offset - info.first.offset) ∧
    info.first.end_ = info.second.begin_ ∧
    info.first.end_ + info.first.offset ≤ sec ∧
    sec < info.second.begin_ + info.second.offset := by
  refine ⟨?_, get_info_local_nonexistent z sec info hinfo hres⟩
  rw [impl_eq_of_info db id z sec pref GapHandling.moveForward info hz hinfo, hres]

/-- C2 witness: the design document's spring-forward example: civil
2023-03-26 02:30 (naive 1679797800) in the +1h/+2h zone resolves to offset
+2h with adjustment +1h. -/
theorem gap_move_forward_witness :
    (([gapZone] : List TimeZone)[0]? = some gapZone ∧
      get_info_local gapZone 1679797800 =
        some ⟨LocalResult.nonexistent, gpA, gpB⟩) ∧
    offset_at_datetime_impl [gapZone] 0 1679797800 0 GapHandling.moveForward =
      (gpB.offset, gpB.offset - gpA.offset) ∧
    gpA.end_ = gpB.begin_ ∧
    gpA.end_ + gpA.offset ≤ 1679797800 ∧
    (1679797800 : Int) < gpB.begin_ + gpB.offset := by
  refine ⟨⟨by decide, by decide⟩, ?_⟩
  exact gap_move_forward_offset_and_adjustment [gapZone] 0 gapZone 1679797800 0
    ⟨LocalResult.nonexistent, gpA, gpB⟩ (by decide) (by decide) rfl

/-- C3: for every known zone and civil time classified as nonexistent,
`offset_at_datetime_impl` under `NEXT_CORRECT` returns adjustment
(UTC instant of the gap's end, `second.begin_`) − (naive civil encoding) +
(post-gap offset); adding the adjustment to the civil value lands exactly on
the first real civil time after the gap ends. -/
theorem gap_next_correct_adjustment (db : List TimeZone) (id : Nat)
    (z : TimeZone) (sec pref : Int) (info : LocalInfo)
    (hz : db[id]? = some z)
    (hinfo : get_info_local z sec = some info)
    (hres : info.result = LocalResult.nonexistent) :
    offset_at_datetime_impl db id sec pref GapHandling.nextCorrect =
      (info.second.offset, info.second.begin_ - sec + info.second.offset) ∧
    sec + (info.second.begin_ - sec + info.second.offset) =
      info.second.begin_ + info.second.offset ∧
    info.first.end_ = info.second.begin_ ∧
    info.first.end_ + info.first.offset ≤ sec ∧
    sec < info.second.begin_ + info.second.offset := by
  refine ⟨?_, by omega, get_info_local_nonexistent z sec info hinfo hres⟩
  rw [impl_eq_of_info db id z sec pref GapHandling.nextCorrect info hz hinfo, hres]

/-- C3 witness: in the spring-forward example the `NEXT_CORRECT` adjustment
is +1800 s, advancing civil 02:30 to exactly 03:00 local at the gap's end. -/
theorem gap_next_correct_witness :
    (([gapZone] : List TimeZone)[0]? = some gapZone ∧
      get_info_local gapZone 1679797800 =
        some ⟨LocalResult.nonexistent, gpA, gpB⟩) ∧
    offset_at_datetime_impl [gapZone] 0 1679797800 0 GapHandling.nextCorrect =
      (gpB.offset, gpB.begin_ - 1679797800 + gpB.offset) ∧
    (1679797800 : Int) + (gpB.begin_ - 1679797800 + gpB.offset) =
      gpB.begin_ + gpB.offset := by
  refine ⟨⟨by decide, by decide⟩, ?_⟩
  have h := gap_next_correct_adjustment [gapZone] 0 gapZone 1679797800 0
    ⟨LocalResult.nonexistent, gpA, gpB⟩ (by decide) (by decide) rfl
  exact ⟨h.1, h.2.1⟩

/-- C4 counterexample: for the out-of-range instant `min_available_instant -
5` in a zone whose gap starts exactly at the range boundary, the `NEXT_CORRECT`
resolution of the saturated civil midnight yields offset 3600 and adjustment
3600, yet `at_start_of_day` returns `epoch_sec - offset` with the adjustment
discarded, not `epoch_sec - offset + adjustment` as claimed. -/
theorem at_start_of_day_claim_cex :
    offset_at_datetime_impl [gapZoneAtMin] 0
        (saturating (min_available_instant - 5)) 0 GapHandling.nextCorrect =
      (3600, 3600) ∧
    at_start_of_day [gapZoneAtMin] 0 (min_available_instant - 5) =
      min_available_instant - 5 - 3600 ∧
    min_available_instant - 5 - 3600 ≠ min_available_instant - 5 - 3600 + 3600 := by
  decide

/-- C4 (amended to instants within the supported range): `at_start_of_day`
resolves the civil midnight with gap policy `NEXT_CORRECT` (the saturation is
the identity in range) and returns `epoch_sec - offset + adjustment`; if the
resolution fails it returns the far-future sentinel `LONG_MAX`. -/
theorem at_start_of_day_in_range (db : List TimeZone) (id : Nat) (e : Int)
    (h1 : min_available_instant ≤ e) (h2 : e ≤ max_available_instant) :
    saturating e = e ∧
    ((offset_at_datetime_impl db id e 0 GapHandling.nextCorrect).1 = INT_MAX →
      at_start_of_day db id e = LONG_MAX) ∧
    ((offset_at_datetime_impl db id e 0 GapHandling.nextCorrect).1 ≠ INT_MAX →
      at_start_of_day db id e =
        e - (offset_at_datetime_impl db id e 0 GapHandling.nextCorrect).1
          + (offset_at_datetime_impl db id e 0 GapHandling.nextCorrect).2) := by
  have hs : saturating e = e := by
    unfold saturating
    rw [if_neg (by omega), if_neg (by omega)]
  refine ⟨hs, ?_, ?_⟩
  · intro hfail
    unfold at_start_of_day
    rw [hs, if_pos hfail]
  · intro hok
    unfold at_start_of_day
    rw [hs, if_neg hok, if_neg (by omega)]

/-- C4 witness: the gap civil value 1679797800 is in range; `at_start_of_day`
returns the estimate minus the resolved offset plus the `NEXT_CORRECT`
adjustment. -/
theorem at_start_of_day_in_range_witness :
    (min_available_instant ≤ 1679797800 ∧
      (1679797800 : Int) ≤ max_available_instant ∧
      (offset_at_datetime_impl [gapZone] 0 1679797800 0
          GapHandling.nextCorrect).1 ≠ INT_MAX) ∧
    at_start_of_day [gapZone] 0 1679797800 =
      1679797800 - (offset_at_datetime_impl [gapZone] 0 1679797800 0
          GapHandling.nextCorrect).1
        + (offset_at_datetime_impl [gapZone] 0 1679797800 0
            GapHandling.nextCorrect).2 := by
  refine ⟨⟨by decide, by decide, by decide⟩, ?_⟩
  exact (at_start_of_day_in_range [gapZone] 0 1679797800 (by decide)
    (by decide)).2.2 (by decide)

/-- C5: for every zone id and every instant outside the supported range,
`offset_at_instant` returns the same result as for the nearest boundary
instant (saturation to the boundary before resolution). -/
theorem offset_at_instant_saturates (db : List TimeZone) (id : Nat) (e : Int)
    (h : e < min_available_instant ∨ max_available_instant < e) :
    offset_at_instant db id e =
      offset_at_instant db id
        (if e < min_available_instant then min_available_instant
         else max_available_instant) := by
  have hmm := minmax_le
  have hsat : saturating
      (if e < min_available_instant then min_available_instant
       else max_available_instant) = saturating e := by
    unfold saturating
    split_ifs <;> omega
  unfold offset_at_instant
  rw [hsat]

/-- C5 witness: an instant 999 s past the supported maximum resolves exactly
as the maximum boundary instant does. -/
theorem offset_at_instant_saturates_witness :
    (max_available_instant < max_available_instant + 999) ∧
    offset_at_instant [flatZone] 0 (max_available_instant + 999) =
      offset_at_instant [flatZone] 0
        (if max_available_instant + 999 < min_available_instant
         then min_available_instant else max_available_instant) := by
  refine ⟨by decide, ?_⟩
  exact offset_at_instant_saturates [flatZone] 0 (max_available_instant + 999)
    (Or.inr (by decide))

/-- C9: for every known zone with a pairwise-disjoint interval table and
every civil time classified as unique with resolved offset `o = first.offset`
(and `t - o` inside the supported instant range), `offset_at_datetime_impl`
returns `(o, 0)` and the round trip holds:
`offset_at_instant (z, t - o) = o`. -/
theorem unique_roundtrip (db : List TimeZone) (id : Nat) (z : TimeZone)
    (sec pref : Int) (g : GapHandling) (info : LocalInfo)
    (hz : db[id]? = some z)
    (hwf : z.intervals.Pairwise SysDisjoint)
    (hinfo : get_info_local z sec = some info)
    (hres : info.result = LocalResult.unique)
    (hr1 : min_available_instant ≤ sec - info.first.offset)
    (hr2 : sec - info.first.offset ≤ max_available_instant) :
    offset_at_datetime_impl db id sec pref g = (info.first.offset, 0) ∧
    offset_at_instant db id (sec - info.first.offset) = info.first.offset := by
  constructor
  · rw [impl_eq_of_info db id z sec pref g info hz hinfo, hres]
  · have hcand := get_info_local_unique z sec info hinfo hres
    have hmem : info.first ∈ local_candidates z sec := by
      rw [hcand]; exact List.mem_singleton_self _
    unfold local_candidates at hmem
    have hmf := List.mem_filter.mp hmem
    simp only [Bool.and_eq_true, decide_eq_true_eq] at hmf
    obtain ⟨hin, hp1, hp2⟩ := hmf
    have hsat : saturating (sec - info.first.offset) = sec - info.first.offset := by
      unfold saturating
      rw [if_neg (by omega), if_neg (by omega)]
    have hlook := sys_lookup_of_mem hwf hin
      (show info.first.begin_ ≤ sec - info.first.offset by omega)
      (show sec - info.first.offset < info.first.end_ by omega)
    unfold offset_at_instant
    simp only [hz]
    rw [hsat, hlook]

/-- C9 witness: the unique civil time 2023-07-01 12:00 (naive 1688212800) in
the example zone resolves to +2h, and the instant obtained by subtracting
that offset resolves back to +2h. -/
theorem unique_roundtrip_witness :
    (([gapZone] : List TimeZone)[0]? = some gapZone ∧
      gapZone.intervals.Pairwise SysDisjoint ∧
      get_info_local gapZone 1688212800 =
        some ⟨LocalResult.unique, gpB, defaultSysInfo⟩) ∧
    offset_at_datetime_impl [gapZone] 0 1688212800 0 GapHandling.moveForward =
      (gpB.offset, 0) ∧
    offset_at_instant [gapZone] 0 (1688212800 - gpB.offset) = gpB.offset := by
  refine ⟨⟨by decide, by decide, by decide⟩, ?_⟩
  exact unique_roundtrip [gapZone] 0 gapZone 1688212800 0 GapHandling.moveForward
    ⟨LocalResult.unique, gpB, defaultSysInfo⟩ (by decide) (by decide) (by decide)
    rfl (by decide) (by decide)

/-- C10: for every known zone and instant strictly outside the supported
range whose saturated-boundary resolution succeeds, `at_start_of_day`
discards the `NEXT_CORRECT` adjustment and returns exactly
`epoch_sec - offset`, the offset being resolved at the saturated boundary
instant. -/
theorem at_start_of_day_out_of_range (db : List TimeZone) (id : Nat)
    (z : TimeZone) (e : Int)
    (hz : db[id]? = some z)
    (hout : e < min_available_instant ∨ max_available_instant < e)
    (hok : (offset_at_datetime_impl db id (saturating e) 0
        GapHandling.nextCorrect).1 ≠ INT_MAX) :
    at_start_of_day db id e =
      e - (offset_at_datetime_impl db id (saturating e) 0
          GapHandling.nextCorrect).1 ∧
    saturating e =
      (if e < min_available_instant then min_available_instant
       else max_available_instant) := by
  have hmm := minmax_le
  constructor
  · unfold at_start_of_day
    rw [if_neg hok, if_pos (by omega)]
    show e - (offset_at_datetime_impl db id (saturating e) 0
        GapHandling.nextCorrect).1 + 0 = _
    omega
  · unfold saturating
    split_ifs <;> omega

/-- C10 witness: five seconds before the supported minimum, the zone with a
gap at the boundary resolves to offset 3600 with a non-zero adjustment, and
`at_start_of_day` returns the instant minus the offset only. -/
theorem at_start_of_day_out_of_range_witness :
    (([gapZoneAtMin] : List TimeZone)[0]? = some gapZoneAtMin ∧
      min_available_instant - 5 < min_available_instant ∧
      (offset_at_datetime_impl [gapZoneAtMin] 0
          (saturating (min_available_instant - 5)) 0
          GapHandling.nextCorrect).1 ≠ INT_MAX) ∧
    at_start_of_day [gapZoneAtMin] 0 (min_available_instant - 5) =
      min_available_instant - 5 -
        (offset_at_datetime_impl [gapZoneAtMin] 0
            (saturating (min_available_instant - 5)) 0
            GapHandling.nextCorrect).1 := by
  refine ⟨⟨by decide, by decide, by decide⟩, ?_⟩
  exact (at_start_of_day_out_of_range [gapZoneAtMin] 0 gapZoneAtMin
    (min_available_instant - 5) (by decide) (Or.inl (by decide)) (by decide)).1

/-- A `key_to_string` failure is always the `runtime_error` thrown for an
over-long key. -/
theorem key_to_string_error (d : DTZI) (e : CppError)
    (h : key_to_string d = Except.error e) : e = CppError.runtime_error := by
  unfold key_to_string at h
  split at h
  · cases h; rfl
  · split at h <;> cases h

/-- If the enumeration contains any successful entry with an over-long key,
the first rebuild loop aborts with `runtime_error` (the `key_to_string` call
has no handler). -/
theorem build_native_map_error {reg : List EnumResult} {d : DTZI}
    (hmem : EnumResult.success d ∈ reg)
    (hlong : MAX_KEY_LENGTH < d.keyName.length + 1) :
    build_native_map reg = Except.error CppError.runtime_error := by
  induction reg with
  | nil => cases hmem
  | cons x rest ih =>
    cases x with
    | failure =>
      have hm : EnumResult.success d ∈ rest := by
        rcases List.mem_cons.mp hmem with h | h
        · exact EnumResult.noConfusion h
        · exact h
      rw [build_native_map]
      exact ih hm
    | success d2 =>
      rcases List.mem_cons.mp hmem with h | h
      · have hd : d2 = d := by cases h; rfl
        rw [build_native_map, hd]
        have hk : key_to_string d = Except.error CppError.runtime_error := by
          unfold key_to_string
          rw [if_pos hlong]
        rw [hk]
      · rw [build_native_map]
        cases hk : key_to_string d2 with
        | error e => rw [key_to_string_error d2 e hk]
        | ok k => rw [ih h]

/-- C6 counterexample: rebuilding from a registry whose second entry has a
128-character key aborts with a propagated `runtime_error` and leaves the
cache empty, so the perfectly good first entry (the only mapped zone, id 0)
is no longer queryable; with the malformed entry absent, the same lookup
succeeds. -/
theorem malformed_key_aborts_rebuild_cex :
    time_zone_by_id reg_bad stw0 zids0 ⟨[], 0⟩ 10 0 =
      (⟨[], 310⟩, Except.error CppError.runtime_error, 1) ∧
    time_zone_by_id reg_good stw0 zids0 ⟨[], 0⟩ 10 0 =
      (⟨[(0, ⟨wEuropeKey⟩)], 310⟩, Except.ok (some ⟨wEuropeKey⟩), 1) := by
  decide

/-- C6 (amended): during a cache rebuild, only entries with a non-success
enumeration status are skipped; a registry key name longer than the fixed
buffer instead aborts the rebuild with a `runtime_error` that propagates past
the lookup's `out_of_range` handler, leaving an empty cache (no zone
queryable) until the already-advanced deadline. -/
theorem malformed_key_aborts_rebuild (reg : List EnumResult) (d : DTZI)
    (stw : List (String × String)) (zids : List (String × Nat))
    (st : CacheState) (now : Int) (id : Nat)
    (hmem : EnumResult.success d ∈ reg)
    (hlong : MAX_KEY_LENGTH < d.keyName.length + 1)
    (hstale : st.next_flush < now) :
    time_zone_by_id reg stw zids st now id =
      (⟨[], now + CACHE_INVALIDATION_TIMEOUT⟩,
        Except.error CppError.runtime_error, 1) ∧
    (∀ r : List EnumResult,
      build_native_map (EnumResult.failure :: r) = build_native_map r) := by
  refine ⟨?_, fun r => rfl⟩
  have hb := build_native_map_error hmem hlong
  unfold time_zone_by_id
  rw [if_pos hstale]
  unfold repopulate_timezone_cache
  rw [if_neg (by omega), hb]

/-- C6 witness: the concrete bad registry, stale cache and due lookup. -/
theorem malformed_key_aborts_rebuild_witness :
    (EnumResult.success ⟨longKey⟩ ∈ reg_bad ∧
      MAX_KEY_LENGTH < longKey.length + 1 ∧
      (⟨[], 0⟩ : CacheState).next_flush < 10) ∧
    time_zone_by_id reg_bad stw0 zids0 ⟨[], 0⟩ 10 0 =
      (⟨[], 10 + CACHE_INVALIDATION_TIMEOUT⟩,
        Except.error CppError.runtime_error, 1) := by
  refine ⟨⟨by decide, by decide, by decide⟩, ?_⟩
  exact (malformed_key_aborts_rebuild reg_bad ⟨longKey⟩ stw0 zids0 ⟨[], 0⟩ 10 0
    (by decide) (by decide) (by decide)).1

/-- C7: on an unknown zone id, the Windows `offset_at_datetime_impl` returns
`INT_MAX` as the adjustment return value and leaves the caller's offset
output untouched (here still 0), contradicting the header contract that the
offset output is set to `INT_MAX`; the date-library backend honors the
contract and writes `INT_MAX` into the offset output. -/
theorem windows_unknown_zone_offset_untouched :
    time_zone_by_id reg_good stw0 zids0 ⟨[], 100⟩ 50 7 =
      (⟨[], 100⟩, Except.ok none, 0) ∧
    w_offset_at_datetime_impl none (fun _ => (0, 0)) 0 = (0, INT_MAX) ∧
    (0 : Int) ≠ INT_MAX ∧
    offset_at_datetime_impl [] 7 12345 0 GapHandling.moveForward =
      (INT_MAX, 0) := by
  decide

/-- C8 counterexample: a lookup issued exactly at the refresh deadline
(`now = next_flush = 0`) performs no enumeration and leaves the deadline
unchanged; the claimed behavior for a lookup "at or after the deadline" — a
rebuild setting the deadline to now + 5 minutes — does not occur. -/
theorem lookup_at_deadline_no_rebuild_cex :
    (time_zone_by_id reg_good stw0 zids0 ⟨[], 0⟩ 0 0).2.2 = 0 ∧
    (time_zone_by_id reg_good stw0 zids0 ⟨[], 0⟩ 0 0).1 = ⟨[], 0⟩ ∧
    ¬ ((time_zone_by_id reg_good stw0 zids0 ⟨[], 0⟩ 0 0).2.2 = 1 ∧
       (time_zone_by_id reg_good stw0 zids0 ⟨[], 0⟩ 0 0).1.next_flush =
         0 + CACHE_INVALIDATION_TIMEOUT) := by
  decide

/-- C8 (amended): a rebuild sets the deadline to the rebuild time plus 5
minutes; the double-check inside the rebuild returns untouched when not yet
due; a lookup at or before the current deadline triggers no registry
enumeration and leaves the state unchanged; a lookup strictly after the
deadline triggers exactly one enumeration, after which any lookup at or
before the new deadline again enumerates nothing. -/
theorem cache_refresh_deadline (reg : List EnumResult)
    (stw : List (String × String)) (zids : List (String × Nat))
    (st : CacheState) (now : Int) (id : Nat) :
    (now < st.next_flush →
      repopulate_timezone_cache reg stw zids st now = (st, none, 0)) ∧
    (now ≤ st.next_flush →
      (time_zone_by_id reg stw zids st now id).1 = st ∧
      (time_zone_by_id reg stw zids st now id).2.2 = 0) ∧
    (st.next_flush < now →
      (time_zone_by_id reg stw zids st now id).1.next_flush =
          now + CACHE_INVALIDATION_TIMEOUT ∧
      (time_zone_by_id reg stw zids st now id).2.2 = 1 ∧
      (∀ now2 id2, now2 ≤ now + CACHE_INVALIDATION_TIMEOUT →
        (time_zone_by_id reg stw zids
            (time_zone_by_id reg stw zids st now id).1 now2 id2).1 =
          (time_zone_by_id reg stw zids st now id).1 ∧
        (time_zone_by_id reg stw zids
            (time_zone_by_id reg stw zids st now id).1 now2 id2).2.2 = 0)) := by
  have fast : ∀ (st2 : CacheState) (n2 : Int) (i2 : Nat), n2 ≤ st2.next_flush →
      (time_zone_by_id reg stw zids st2 n2 i2).1 = st2 ∧
      (time_zone_by_id reg stw zids st2 n2 i2).2.2 = 0 := by
    intro st2 n2 i2 hle
    unfold time_zone_by_id
    rw [if_neg (by omega)]
    cases hf : st2.cache.find? (fun p => p.1 == i2) <;> simp [hf]
  have slow : st.next_flush < now →
      (time_zone_by_id reg stw zids st now id).1 =
        (⟨(repopulate_timezone_cache reg stw zids st now).1.cache,
          now + CACHE_INVALIDATION_TIMEOUT⟩ : CacheState) ∧
      (time_zone_by_id reg stw zids st now id).2.2 = 1 := by
    intro hlt
    unfold time_zone_by_id repopulate_timezone_cache
    rw [if_pos hlt, if_neg (by omega)]
    cases hb : build_native_map reg with
    | error e => simp [hb]
    | ok m =>
      simp only [hb]
      cases hf : (build_cache stw zids m).find? (fun p => p.1 == id) <;>
        simp [hf]
  refine ⟨?_, fun h => fast st now id h, ?_⟩
  · intro hlt
    unfold repopulate_timezone_cache
    rw [if_pos hlt]
  · intro hlt
    obtain ⟨h1, h2⟩ := slow hlt
    refine ⟨by rw [h1], h2, ?_⟩
    intro now2 id2 hle
    exact fast _ now2 id2 (by rw [h1]; exact hle)

/-- C8 witness: a stale lookup at time 10 rebuilds once and sets the deadline
to 310; a follow-up lookup at time 100 (within the window) enumerates
nothing. -/
theorem cache_refresh_deadline_witness :
    ((⟨[], 0⟩ : CacheState).next_flush < 10) ∧
    (time_zone_by_id reg_good stw0 zids0 ⟨[], 0⟩ 10 0).1.next_flush =
      10 + CACHE_INVALIDATION_TIMEOUT ∧
    (time_zone_by_id reg_good stw0 zids0 ⟨[], 0⟩ 10 0).2.2 = 1 ∧
    (time_zone_by_id reg_good stw0 zids0
        (time_zone_by_id reg_good stw0 zids0 ⟨[], 0⟩ 10 0).1 100 0).2.2 = 0 := by
  have h := (cache_refresh_deadline reg_good stw0 zids0 ⟨[], 0⟩ 10 0).2.2
    (by decide)
  exact ⟨by decide, h.1, h.2.1, (h.2.2 100 0 (by decide)).2⟩
